import Mathlib

/-!
Shallow embedding of `src/lib.rs` of `actix-web-idempotency`: an actix-web
middleware that is meant to enforce idempotent request semantics via an
`Idempotency-Key` header.

The middleware (`IdempotencyMiddleware::call`) does, in order:
1. if the `Idempotency-Key` header is absent, short-circuits with the
   rendered `Missing` error response (no handler call);
2. otherwise converts the header value to a string with
   `HeaderValue::to_str().unwrap()` — this PANICS when the value holds a
   byte outside visible ASCII;
3. parses the string with `Uuid::try_from`; on failure short-circuits with
   the rendered `Malformed` error response (no handler call);
4. otherwise ALWAYS invokes the wrapped service; on handler error the `?`
   operator propagates it before any bookkeeping; on success it pushes the
   token on the queue and inserts the response into the response cache
   (`HashMap::insert`, overwriting any previous entry), then returns the
   fresh handler response.

The cache is never read in `call`, no fingerprint is ever computed, and
`IdempotencyError::AlreadyExists` is rendered by `Into<HttpResponse>` but
never constructed by the middleware.

Machine integers are modelled as `Nat` (bytes as `Nat` values < 256,
status codes as `Nat`, the 128-bit UUID value as `Nat`); time
(`DateTime<Utc>`) is an abstract `Nat` instant passed in explicitly.
-/

/-- A request, restricted to what `call` inspects: the (optional) value of
the `Idempotency-Key` header as raw bytes, and the body bytes (the body is
never read by the middleware; it is kept so that handlers can depend on
it).  actix header-map lookup for the one fixed header name
`Idempotency-Key` is modelled by the `Option`. -/
structure Request where
  idemHeader : Option (List Nat)
  body : List Nat
deriving DecidableEq, Repr

/-- The data of a `ServiceResponse`/`HttpResponse` that the middleware
observes: status code, headers as name/value strings, body bytes. -/
structure HandlerResponse where
  status : Nat
  headers : List (String × String)
  body : List Nat
deriving DecidableEq, Repr

/-- The `enum IdempotencyError` from `src/lib.rs` (lines 70–77). -/
inductive IdempotencyError where
  | missing
  | malformed
  | alreadyExists
deriving DecidableEq, Repr

/-- serde rendering of `IdempotencyErrorWrapper { error }` with
`rename_all = "UPPERCASE"` and the explicit rename to `ALREADY_EXISTS`. -/
def IdempotencyError.jsonBody : IdempotencyError → String
  | .missing => "\x7b\"error\":\"MISSING\"\x7d"
  | .malformed => "\x7b\"error\":\"MALFORMED\"\x7d"
  | .alreadyExists => "\x7b\"error\":\"ALREADY_EXISTS\"\x7d"

/-- Status mapping of `Into<HttpResponse> for IdempotencyError`
(lines 205–214): `Missing`/`Malformed` → 400, `AlreadyExists` → 409. -/
def IdempotencyError.statusCode : IdempotencyError → Nat
  | .missing => 400
  | .malformed => 400
  | .alreadyExists => 409

/-- UTF-8 bytes of an ASCII string (all strings involved are ASCII). -/
def strBytes (s : String) : List Nat :=
  s.data.map Char.toNat

/-- Rendering `Into::<HttpResponse>::into(err)`: `HttpResponse::build(status).json(..)`
— the JSON builder sets `Content-Type: application/json` and serializes the
wrapper struct as the body. -/
def errorResponse (e : IdempotencyError) : HandlerResponse :=
  { status := e.statusCode
    headers := [("content-type", "application/json")]
    body := strBytes e.jsonBody }

/-- Conversion `http::HeaderValue::to_str`: succeeds iff every byte is visible ASCII
(32 ≤ b < 127) or horizontal tab (9); the resulting string is the bytes
decoded as ASCII. -/
def headerValueToStr (bs : List Nat) : Option String :=
  if bs.all (fun b => (32 ≤ b && b < 127) || b == 9) then
    some ⟨bs.map Char.ofNat⟩
  else
    none

/-- Value of one hex digit, case-insensitive (as in the uuid crate). -/
def hexVal (c : Char) : Option Nat :=
  if '0' ≤ c ∧ c ≤ '9' then some (c.toNat - 48)
  else if 'a' ≤ c ∧ c ≤ 'f' then some (c.toNat - 87)
  else if 'A' ≤ c ∧ c ≤ 'F' then some (c.toNat - 55)
  else none

/-- Big-endian accumulation of hex digits into a number; fails on the
first non-hex character. -/
def parseHex : List Char → Nat → Option Nat
  | [], acc => some acc
  | c :: cs, acc =>
    match hexVal c with
    | none => none
    | some v => parseHex cs (acc * 16 + v)

/-- Parsing `Uuid::try_from(&str)` of the uuid crate, modelled for the two
formats exercised here: the 32-hex-digit simple form and the 36-character
hyphenated form 8-4-4-4-12 (the braced and URN variants the crate also
accepts are omitted; no theorem depends on them).  Hex digits are parsed
case-insensitively and the result is the 128-bit value of the UUID. -/
def uuidTryFrom (s : String) : Option Nat :=
  let cs := s.data
  if cs.length = 32 then
    parseHex cs 0
  else if cs.length = 36 then
    match cs.drop 8 with
    | '-' :: r2 =>
      match r2.drop 4 with
      | '-' :: r3 =>
        match r3.drop 4 with
        | '-' :: r4 =>
          match r4.drop 4 with
          | '-' :: g5 =>
            parseHex (cs.take 8 ++ (r2.take 4 ++ (r3.take 4 ++ (r4.take 4 ++ g5)))) 0
          | _ => none
        | _ => none
      | _ => none
    | _ => none
  else none

/-- The `struct CacheElement` (lines 56–62): cached response body bytes,
headers, status code and creation instant. -/
structure CacheElement where
  response : List Nat
  headers : List (String × String)
  statuscode : Nat
  created_at : Nat
deriving DecidableEq, Repr

/-- The mutable state of `IdempotencyMiddleware`: the `LinkedList<Uuid>`
queue and the `HashMap<Uuid, CacheElement>` response cache (modelled as an
association list with at most one binding per key). -/
structure MWState where
  queue : List Nat
  cache : List (Nat × CacheElement)
deriving DecidableEq, Repr

/-- Insertion `HashMap::insert`: binds `k` to `v`, overwriting any previous
binding. -/
def cacheInsert (m : List (Nat × CacheElement)) (k : Nat) (v : CacheElement) :
    List (Nat × CacheElement) :=
  (k, v) :: m.filter (fun p => p.1 != k)

/-- Lookup `HashMap::get`. -/
def cacheLookup (m : List (Nat × CacheElement)) (k : Nat) : Option CacheElement :=
  match m.find? (fun p => p.1 == k) with
  | none => none
  | some p => some p.2

/-- Building a `CacheElement` from a response at instant `now`
(`From<HttpResponse> for CacheElement`, with `created_at := Utc::now()`). -/
def mkCacheElement (r : HandlerResponse) (now : Nat) : CacheElement :=
  { response := r.body
    headers := r.headers
    statuscode := r.status
    created_at := now }

/-- What one `call` delivers to the caller: a normal `Ok(ServiceResponse)`
(which includes the rendered `Missing`/`Malformed` error responses),
a propagated handler error (`Err`), or a panic of the middleware task. -/
inductive CallOutcome where
  | ok (resp : HandlerResponse)
  | handlerError (e : String)
  | panics
deriving DecidableEq, Repr

/-- Result of one `call`: the outcome, the middleware state afterwards and
the number of times the wrapped handler was invoked during the call. -/
structure CallResult where
  outcome : CallOutcome
  state : MWState
  invocations : Nat
deriving DecidableEq, Repr

/-- The body of `IdempotencyMiddleware::call` (lines 96–157).  `handler` is the
wrapped service, `st` the middleware state, `now` the instant at which a
cache element would be created.
- header absent → `Missing` error response, handler not invoked;
- `to_str` fails (a byte outside visible ASCII) → `unwrap` panics;
- `Uuid::try_from` fails → `Malformed` error response, handler not invoked;
- otherwise the wrapped service is invoked unconditionally: its error is
  propagated by `?` before any bookkeeping; on success the token is pushed
  on the queue, the response is inserted into the cache, and the fresh
  handler response is returned.  The cache is never consulted. -/
def call (handler : Request → Except String HandlerResponse)
    (st : MWState) (req : Request) (now : Nat) : CallResult :=
  match req.idemHeader with
  | none => ⟨.ok (errorResponse .missing), st, 0⟩
  | some v =>
    match headerValueToStr v with
    | none => ⟨.panics, st, 0⟩
    | some s =>
      match uuidTryFrom s with
      | none => ⟨.ok (errorResponse .malformed), st, 0⟩
      | some token =>
        match handler req with
        | .error e => ⟨.handlerError e, st, 1⟩
        | .ok resp =>
          ⟨.ok resp,
           { queue := st.queue ++ [token]
             cache := cacheInsert st.cache token (mkCacheElement resp now) },
           1⟩

/-! Concrete fixtures used by witnesses and counterexamples. -/

/-- Empty middleware state. -/
def st0 : MWState := ⟨[], []⟩

/-- A handler that always succeeds with `201`, body `[1]`. -/
def handler201 : Request → Except String HandlerResponse :=
  fun _ => .ok ⟨201, [("content-type", "application/json")], [1]⟩

/-- A lowercase hyphenated UUID string. -/
def uuidLower : String := "abcdef01-2345-6789-abcd-ef0123456789"

/-- The same UUID string in uppercase hex. -/
def uuidUpper : String := "ABCDEF01-2345-6789-ABCD-EF0123456789"

/-- A request carrying `uuidLower` as its `Idempotency-Key`, body `[5]`. -/
def reqLower : Request := ⟨some (strBytes uuidLower), [5]⟩

example : headerValueToStr (strBytes uuidLower) = some uuidLower := by decide

example : (uuidTryFrom uuidLower).isSome = true := by decide

example : (call handler201 st0 reqLower 0).invocations = 1 := by decide

/-- The 128-bit value of `uuidLower` (and of `uuidUpper`). -/
def tokLower : Nat := (uuidTryFrom uuidLower).getD 0

/-- A request carrying `uuidUpper` as its `Idempotency-Key`, body `[5]`. -/
def reqUpper : Request := ⟨some (strBytes uuidUpper), [5]⟩

/-- A request reusing `uuidLower` with a different body `[7]` (a different
payload, hence a different fingerprint in the spec's sense). -/
def reqOther : Request := ⟨some (strBytes uuidLower), [7]⟩

/-- A request with no `Idempotency-Key` header. -/
def reqNoKey : Request := ⟨none, [5]⟩

/-- A request whose `Idempotency-Key` value is the single byte `0xFF`,
which is outside visible ASCII. -/
def reqFF : Request := ⟨some [255], [5]⟩

/-- A request whose `Idempotency-Key` value is the visible-ASCII string
`"hello"`, which is not a well-formed UUID. -/
def reqBadUuid : Request := ⟨some (strBytes "hello"), [5]⟩

/-- A handler that always fails with error `"boom"`. -/
def handlerFail : Request → Except String HandlerResponse :=
  fun _ => .error "boom"

/-- A middleware state holding a completed cache entry for `tokLower`
whose stored response is `201` with body `[9]`, created at instant `0`. -/
def stCached : MWState :=
  ⟨[tokLower],
   [(tokLower, ⟨[9], [("content-type", "application/json")], 201, 0⟩)]⟩

/-- Looking up the key just inserted returns the inserted element. -/
theorem cacheLookup_insert (m : List (Nat × CacheElement)) (k : Nat)
    (v : CacheElement) : cacheLookup (cacheInsert m k v) k = some v := by
  simp [cacheLookup, cacheInsert]

/-- C1: the claim says a request whose token has a completed cache entry
with matching fingerprint is answered from the cache (body `[9]` here)
without invoking the handler.  The code never consults the cache: at the
concrete input it invokes the handler once and returns the handler's fresh
response (body `[1]`), not the cached bytes. -/
theorem c1_cache_never_consulted :
    cacheLookup stCached.cache tokLower =
      some ⟨[9], [("content-type", "application/json")], 201, 0⟩ ∧
    (call handler201 stCached reqLower 5).invocations = 1 ∧
    (call handler201 stCached reqLower 5).outcome =
      .ok ⟨201, [("content-type", "application/json")], [1]⟩ ∧
    (call handler201 stCached reqLower 5).outcome ≠
      .ok ⟨201, [("content-type", "application/json")], [9]⟩ := by
  decide

/-- C2: the claim says reusing a token with a different payload is
answered `409` with body `{"error":"ALREADY_EXISTS"}` without invoking the
handler.  At the concrete input (entry for `tokLower` present, request
reusing it with body `[7]`) the code invokes the handler once and returns
the handler's `201`, never the rendered conflict (which the renderer would
produce as status `409` with that JSON body, but `call` never builds it). -/
theorem c2_conflict_never_raised :
    (call handler201 stCached reqOther 5).invocations = 1 ∧
    (call handler201 stCached reqOther 5).outcome =
      .ok ⟨201, [("content-type", "application/json")], [1]⟩ ∧
    (call handler201 stCached reqOther 5).outcome ≠
      .ok (errorResponse .alreadyExists) ∧
    (errorResponse .alreadyExists).status = 409 ∧
    (errorResponse .alreadyExists).body =
      strBytes "\x7b\"error\":\"ALREADY_EXISTS\"\x7d" := by
  decide

/-- C3: the claim says the handler runs exactly once for N requests
sharing a token and fingerprint.  Already for two identical requests run
one after the other (the weakest interleaving of two concurrent callers),
each `call` invokes the handler, for a total of two invocations. -/
theorem c3_duplicate_executes_twice :
    (call handler201 st0 reqLower 0).invocations = 1 ∧
    (call handler201 (call handler201 st0 reqLower 0).state reqLower 1).invocations
      = 1 := by
  decide

/-- C4: a request without the `Idempotency-Key` header is answered with
the rendered `Missing` error response — status `400`, JSON body
`{"error":"MISSING"}` — the handler is not invoked and the state is
unchanged. -/
theorem c4_missing_key (handler : Request → Except String HandlerResponse)
    (st : MWState) (req : Request) (now : Nat)
    (h : req.idemHeader = none) :
    (call handler st req now).outcome = .ok (errorResponse .missing) ∧
    (call handler st req now).invocations = 0 ∧
    (call handler st req now).state = st ∧
    (errorResponse .missing).status = 400 ∧
    (errorResponse .missing).body = strBytes "\x7b\"error\":\"MISSING\"\x7d" := by
  unfold call
  rw [h]
  exact ⟨rfl, rfl, rfl, rfl, rfl⟩

/-- Witness for C4 at the concrete request `reqNoKey`. -/
theorem c4_missing_key_witness :
    (call handler201 st0 reqNoKey 0).outcome = .ok (errorResponse .missing) ∧
    (call handler201 st0 reqNoKey 0).invocations = 0 ∧
    (call handler201 st0 reqNoKey 0).state = st0 ∧
    (errorResponse .missing).status = 400 ∧
    (errorResponse .missing).body = strBytes "\x7b\"error\":\"MISSING\"\x7d" :=
  c4_missing_key handler201 st0 reqNoKey 0 rfl

/-- C5, counterexample: the header value `[0xFF]` is present and is not a
well-formed UUID (it does not even convert to a string), yet the
middleware panics on `to_str().unwrap()` instead of answering with the
`Malformed` response. -/
theorem c5_nonascii_value_not_malformed :
    reqFF.idemHeader = some [255] ∧
    headerValueToStr [255] = none ∧
    (call handler201 st0 reqFF 0).outcome = .panics ∧
    (call handler201 st0 reqFF 0).outcome ≠ .ok (errorResponse .malformed) := by
  decide

/-- C5, amended: a request whose header value converts to a visible-ASCII
string that fails the UUID parse is answered with the rendered `Malformed`
error response — status `400`, JSON body `{"error":"MALFORMED"}` — the
handler is not invoked and the state is unchanged. -/
theorem c5_malformed_key (handler : Request → Except String HandlerResponse)
    (st : MWState) (req : Request) (now : Nat) (v : List Nat) (s : String)
    (hh : req.idemHeader = some v) (hs : headerValueToStr v = some s)
    (hu : uuidTryFrom s = none) :
    (call handler st req now).outcome = .ok (errorResponse .malformed) ∧
    (call handler st req now).invocations = 0 ∧
    (call handler st req now).state = st ∧
    (errorResponse .malformed).status = 400 ∧
    (errorResponse .malformed).body = strBytes "\x7b\"error\":\"MALFORMED\"\x7d" := by
  simp only [call, hh, hs, hu]
  exact ⟨trivial, trivial, trivial, rfl, rfl⟩

/-- Witness for the amended C5 at the concrete request `reqBadUuid`. -/
theorem c5_malformed_key_witness :
    (call handler201 st0 reqBadUuid 0).outcome = .ok (errorResponse .malformed) ∧
    (call handler201 st0 reqBadUuid 0).invocations = 0 ∧
    (call handler201 st0 reqBadUuid 0).state = st0 ∧
    (errorResponse .malformed).status = 400 ∧
    (errorResponse .malformed).body = strBytes "\x7b\"error\":\"MALFORMED\"\x7d" :=
  c5_malformed_key handler201 st0 reqBadUuid 0 (strBytes "hello") "hello"
    rfl (by decide) (by decide)

/-- C6: when the wrapped handler fails, `fut.await?` propagates the
handler's own error unmodified before any bookkeeping runs, so queue and
cache are exactly as before; a later request with the same token and the
same body invokes the handler again (one invocation). -/
theorem c6_handler_failure
    (handler handler2 : Request → Except String HandlerResponse)
    (st : MWState) (req : Request) (now now2 : Nat) (v : List Nat) (s : String)
    (tok : Nat) (e : String) (r : HandlerResponse)
    (hh : req.idemHeader = some v) (hs : headerValueToStr v = some s)
    (hu : uuidTryFrom s = some tok) (hf : handler req = .error e)
    (h2 : handler2 req = .ok r) :
    (call handler st req now).outcome = .handlerError e ∧
    (call handler st req now).state = st ∧
    (call handler st req now).invocations = 1 ∧
    (call handler2 (call handler st req now).state req now2).invocations = 1 := by
  simp only [call, hh, hs, hu, hf, h2]
  exact ⟨trivial, trivial, trivial, trivial⟩

/-- Witness for C6: the failing handler `handlerFail` on `reqLower`, then
the succeeding `handler201` on the same request. -/
theorem c6_handler_failure_witness :
    (call handlerFail st0 reqLower 0).outcome = .handlerError "boom" ∧
    (call handlerFail st0 reqLower 0).state = st0 ∧
    (call handlerFail st0 reqLower 0).invocations = 1 ∧
    (call handler201 (call handlerFail st0 reqLower 0).state reqLower 1).invocations
      = 1 :=
  c6_handler_failure handlerFail handler201 st0 reqLower 0 1
    (strBytes uuidLower) uuidLower tokLower "boom"
    ⟨201, [("content-type", "application/json")], [1]⟩
    rfl (by decide) (by decide) rfl rfl

/-- C7: the claim says a completed entry's stored response bytes never
change.  At the concrete input, `stCached` holds a completed entry for
`tokLower` with body `[9]`; one further successful request with the same
token makes `HashMap::insert` overwrite it with the new body `[1]`. -/
theorem c7_completed_entry_overwritten :
    (cacheLookup stCached.cache tokLower).map CacheElement.response = some [9] ∧
    (cacheLookup (call handler201 stCached reqLower 5).state.cache tokLower).map
      CacheElement.response = some [1] ∧
    ([9] : List Nat) ≠ [1] := by
  decide

/-- C8: after the TTL of a completed entry has elapsed
(`elem.created_at + ttl ≤ now`), a new request with the same token invokes
the handler again.  This holds in the code for the degenerate reason that
the cache is never consulted: every validly-keyed request invokes the
handler, whatever the cache holds and whatever the time. -/
theorem c8_ttl_expired_reexecutes
    (handler : Request → Except String HandlerResponse)
    (st : MWState) (req : Request) (now ttl : Nat) (v : List Nat) (s : String)
    (tok : Nat) (elem : CacheElement)
    (_hc : cacheLookup st.cache tok = some elem)
    (_ht : elem.created_at + ttl ≤ now)
    (hh : req.idemHeader = some v) (hs : headerValueToStr v = some s)
    (hu : uuidTryFrom s = some tok) :
    (call handler st req now).invocations = 1 := by
  simp only [call, hh, hs, hu]
  cases hr : handler req <;> simp [hr]

/-- Witness for C8: entry created at instant `0`, TTL `3`, request at
instant `5`. -/
theorem c8_ttl_expired_reexecutes_witness :
    (call handler201 stCached reqLower 5).invocations = 1 :=
  c8_ttl_expired_reexecutes handler201 stCached reqLower 5 3
    (strBytes uuidLower) uuidLower tokLower
    ⟨[9], [("content-type", "application/json")], 201, 0⟩
    (by decide) (by decide) rfl (by decide) (by decide)

/-- C9, counterexample: the claim says the validator yields the header
value unmodified, keeping an uppercase-hex UUID distinct from its
lowercase form.  The code parses the value with `Uuid::try_from`, which is
case-insensitive: the distinct strings `uuidUpper` and `uuidLower` both
yield the same token `tokLower`, and a request carrying either pushes that
same token. -/
theorem c9_case_not_kept_distinct :
    uuidUpper ≠ uuidLower ∧
    uuidTryFrom uuidUpper = some tokLower ∧
    uuidTryFrom uuidLower = some tokLower ∧
    (call handler201 st0 reqUpper 0).state.queue = [tokLower] ∧
    (call handler201 st0 reqLower 0).state.queue = [tokLower] := by
  decide

/-- C9, amended: the validator yields the parsed 128-bit UUID value, not
the raw string, so any two header values parsing to the same UUID (such as
uppercase and lowercase hex forms) address the same token: both requests
append the same token to the queue and the second overwrites the first's
cache entry. -/
theorem c9_token_is_parsed_uuid
    (handler : Request → Except String HandlerResponse)
    (st : MWState) (req1 req2 : Request) (now1 now2 : Nat)
    (v1 v2 : List Nat) (s1 s2 : String) (tok : Nat) (r1 r2 : HandlerResponse)
    (hh1 : req1.idemHeader = some v1) (hs1 : headerValueToStr v1 = some s1)
    (hu1 : uuidTryFrom s1 = some tok)
    (hh2 : req2.idemHeader = some v2) (hs2 : headerValueToStr v2 = some s2)
    (hu2 : uuidTryFrom s2 = some tok)
    (hr1 : handler req1 = .ok r1) (hr2 : handler req2 = .ok r2) :
    (call handler st req1 now1).state.queue = st.queue ++ [tok] ∧
    (call handler (call handler st req1 now1).state req2 now2).state.queue
      = st.queue ++ [tok] ++ [tok] ∧
    cacheLookup
      (call handler (call handler st req1 now1).state req2 now2).state.cache tok
      = some (mkCacheElement r2 now2) := by
  simp only [call, hh1, hs1, hu1, hh2, hs2, hu2, hr1, hr2]
  exact ⟨trivial, trivial, cacheLookup_insert _ _ _⟩

/-- Witness for the amended C9: `reqUpper` then `reqLower`, both resolving
to `tokLower`. -/
theorem c9_token_is_parsed_uuid_witness :
    (call handler201 st0 reqUpper 0).state.queue = st0.queue ++ [tokLower] ∧
    (call handler201 (call handler201 st0 reqUpper 0).state reqLower 1).state.queue
      = st0.queue ++ [tokLower] ++ [tokLower] ∧
    cacheLookup
      (call handler201 (call handler201 st0 reqUpper 0).state reqLower 1).state.cache
      tokLower
      = some (mkCacheElement ⟨201, [("content-type", "application/json")], [1]⟩ 1) :=
  c9_token_is_parsed_uuid handler201 st0 reqUpper reqLower 0 1
    (strBytes uuidUpper) (strBytes uuidLower) uuidUpper uuidLower tokLower
    ⟨201, [("content-type", "application/json")], [1]⟩
    ⟨201, [("content-type", "application/json")], [1]⟩
    rfl (by decide) (by decide) rfl (by decide) (by decide) rfl rfl

/-- C10: a request whose `Idempotency-Key` value holds the byte `0xFF`
(outside visible ASCII) makes `to_str()` fail, so the `unwrap` panics; no
`Malformed` response is produced and the handler is not invoked. -/
theorem c10_nonascii_header_panics :
    reqFF.idemHeader = some [255] ∧
    headerValueToStr [255] = none ∧
    call handler201 st0 reqFF 0 = ⟨.panics, st0, 0⟩ := by
  decide
